import Mathlib

/-!
Verification of the confidence-aware routing and reliability-scoring engine
of the AAI6600 student-support repository.

The development shallowly embeds the two decision components:

* `Group2Router` — the category-to-branch router `group2_router.py`
  (`route_category`, `process_group2_output`, `handle_group2_input` and the
  six static category sets);
* `AntiHallucination` — the facility validator `anti_hallucination.py`
  (`_check_score_confidence`, `_check_data_completeness`,
  `_check_score_anomalies`, `_calculate_reliability`, `validate_facility`).

Python floats are embedded as rationals (`ℚ`); all numeric literals of the
source are exactly representable.  Optional dictionary keys are embedded as
`Option` fields.  Python truthiness of the optional confidence value
(`if confidence and ...`), under which both `None` and `0.0` are falsy, is
embedded by `pyTruthy`.  Numeric string formatting (`{:.2%}`, `{:.1f}`,
`{:.0f}`) is embedded by half-up rounding on rationals; every value a claim
depends on is exact at the formatted precision.
-/

/-- Python `str.strip()`: drop leading and trailing whitespace.  Embedded
over the character list so that it evaluates by kernel reduction (the
source strings are ASCII). -/
def pyStrip (s : String) : String :=
  String.mk ((s.data.dropWhile Char.isWhitespace).reverse.dropWhile Char.isWhitespace).reverse

/-- Python `str.lower()` (the source strings are ASCII). -/
def pyLower (s : String) : String := String.mk (s.data.map Char.toLower)

namespace Group2Router

/-- Urgent categories - always continue even with low confidence. -/
def URGENT_CATEGORIES : List String :=
  ["Crisis counseling",
   "Crisis line",
   "Crisis services",
   "IPV support services",
   "Trauma counseling"]

/-- Moderate categories - continue if confidence >= 30%. -/
def MODERATE_CATEGORIES : List String :=
  ["Mental health",
   "Mental health support",
   "Counseling",
   "Counseling support",
   "Psychiatrist",
   "Grief counseling",
   "Group therapy",
   "Emotional regulation group",
   "Skills group",
   "LGBTQ+ counseling",
   "Cultural counseling",
   "Cultural adjustment counseling",
   "Accessibility counseling",
   "Wellness support",
   "Health",
   "Virtual counseling",
   "Directory of free mental health providers",
   "Specialist",
   "Parenting support",
   "Case management"]

/-- Low priority categories - stop if confidence < 50%. -/
def LOW_PRIORITY_CATEGORIES : List String :=
  ["Self-care",
   "Self-help"]

/-- Group 3 Processing: Affordable Care. -/
def GROUP3_CATEGORIES : List String :=
  ["Mental health",
   "Mental health support",
   "Counseling",
   "Counseling support",
   "Psychiatrist",
   "Crisis counseling",
   "Crisis line",
   "Crisis services",
   "Trauma counseling",
   "Grief counseling",
   "Group therapy",
   "Emotional regulation group",
   "Skills group",
   "LGBTQ+ counseling",
   "Cultural counseling",
   "Cultural adjustment counseling",
   "Accessibility counseling",
   "Self-care",
   "Self-help",
   "Wellness support",
   "Health",
   "Virtual counseling",
   "Directory of free mental health providers",
   "Specialist",
   "Parenting support",
   "Case management"]

/-- Group 4 Processing: Local Events. -/
def GROUP4_CATEGORIES : List String :=
  ["Support group",
   "Peer support",
   "Peer support organizations",
   "Peer group",
   "Peer mentor",
   "LGBTQ+ resource"]

/-- Other Categories: not within scope of Group 3 or 4. -/
def OTHER_CATEGORIES : List String :=
  ["Academic advising",
   "Academic coaching",
   "Advising",
   "Advisor",
   "Career counseling",
   "Career services",
   "Campus health",
   "Campus wellness",
   "Campus case worker",
   "Student services",
   "Disability services",
   "Disability support office",
   "Financial aid",
   "Cultural center",
   "Multicultural center",
   "International student office",
   "Ethics office",
   "STEM mentoring",
   "Mentoring",
   "Online safety resources",
   "Mediation",
   "IPV support services",
   "Military student support",
   "Case manager"]

/-- The input record produced by Group 2 (`group2_output` dict). -/
structure Group2Output where
  category : String := ""
  confidence : Option ℚ := none
  user_input : Option String := none
deriving Repr, DecidableEq

/-- A routing decision dict.  Keys the source only sometimes adds are
`Option` fields (absent = `none`); the two boolean flags are only ever set
to `True`, embedded as `Bool` fields defaulting to `false`. -/
structure RoutingDecision where
  branch : String
  message : String
  category : String
  confidence : Option ℚ
  action : String
  original_input : Option String := none
  warning : Option String := none
  care_level : Option String := none
  confidence_warning : Option String := none
  requires_confirmation : Bool := false
  requires_manual_review : Bool := false
deriving Repr, DecidableEq

/-- Two-digit zero padding for the fractional part of fixed-point output. -/
def natPad2 (n : Nat) : String :=
  if n < 10 then "0" ++ toString n else toString n

/-- Render a rational with two decimal places (half-up rounding). -/
def fmtTwoDec (q : ℚ) : String :=
  let n : Int := ⌊q * 100 + 1/2⌋
  let a := n.natAbs
  let core := toString (a / 100) ++ "." ++ natPad2 (a % 100)
  if n < 0 then "-" ++ core else core

/-- Python `{:.2%}` formatting of a confidence value. -/
def fmtPercent (q : ℚ) : String := fmtTwoDec (q * 100) ++ "%"

/-- Python truthiness of the optional confidence: both `None` and `0.0`
are falsy, every other float is truthy. -/
def pyTruthy (o : Option ℚ) : Prop := o ≠ none ∧ o ≠ some 0

instance (o : Option ℚ) : Decidable (pyTruthy o) := by
  unfold pyTruthy; infer_instance

/-- The numeric value of a present confidence (the source only compares the
value under a `pyTruthy` guard, so the default is never observed). -/
def confVal (o : Option ℚ) : ℚ := o.getD 0

/-- Embedding of `route_category`: determine which branch to route to. -/
def route_category (category : String) (confidence : Option ℚ) : RoutingDecision :=
  let category := pyStrip category
  if category ∈ GROUP3_CATEGORIES then
    { branch := "group3"
      message := "Based on your category [" ++ category ++ "], this is within Affordable Care services. Proceeding to Group 3 process."
      category := category
      confidence := confidence
      action := "proceed_to_group3" }
  else if category ∈ GROUP4_CATEGORIES then
    { branch := "group4"
      message := "Based on your category [" ++ category ++ "], this is within Local Events services. Transferring to Group 4 process."
      category := category
      confidence := confidence
      action := "transfer_to_group4" }
  else if category ∈ OTHER_CATEGORIES then
    { branch := "other"
      message := "Based on your category [" ++ category ++ "], this is currently out of scope. Please return to the previous step and try again."
      category := category
      confidence := confidence
      action := "return_to_previous_step" }
  else
    { branch := "unknown"
      message := "Sorry, unable to recognize category [" ++ category ++ "]. Please rephrase your needs."
      category := category
      confidence := confidence
      action := "ask_for_clarification" }

/-- The low-confidence warning string attached by `process_group2_output`. -/
def lowConfidenceWarning (c : ℚ) : String :=
  "WARNING: Classification confidence is low (" ++ fmtPercent c ++ "), result may be inaccurate"

/-- Embedding of `process_group2_output`: route, copy the original input, and attach a
warning when the confidence is truthy and below 0.5. -/
def process_group2_output (g : Group2Output) : RoutingDecision :=
  let rd := route_category g.category g.confidence
  let rd := { rd with original_input := g.user_input }
  if pyTruthy g.confidence ∧ confVal g.confidence < 0.5 then
    { rd with warning := some (lowConfidenceWarning (confVal g.confidence)) }
  else rd

/-- The care-level lookup at the start of `handle_group2_input`. -/
def care_level_of (category : String) : Option String :=
  if category ∈ URGENT_CATEGORIES then some "URGENT"
  else if category ∈ MODERATE_CATEGORIES then some "MODERATE"
  else if category ∈ LOW_PRIORITY_CATEGORIES then some "LOW"
  else none

/-- The critical warning value placed in the `warning` key. -/
def criticalWarning (c : ℚ) : String :=
  "⚠️ CRITICAL: Very low confidence (" ++ fmtPercent c ++ "). Manual review strongly recommended before proceeding."

/-- The critical-warning sentence appended to the message (non-urgent only). -/
def criticalSuffix (c : ℚ) : String :=
  "\n⚠️⚠️⚠️ CRITICAL WARNING: Confidence only " ++ fmtPercent c ++ ". Consider manual review."

/-- The bracketed low-confidence confirmation suffix. -/
def lowSuffix (c : ℚ) : String :=
  " [Low confidence (" ++ fmtPercent c ++ ") - please confirm before proceeding]"

/-- The confidence-based warning block at the end of `handle_group2_input`:
critical warning below 0.30 (message override skipped for URGENT care),
else confirmation request below 0.50. -/
def confidence_overlay (decision : RoutingDecision) (confidence : Option ℚ)
    (care_level : Option String) : RoutingDecision :=
  if pyTruthy confidence ∧ confVal confidence < 0.30 then
    let d := { decision with
      confidence_warning := some "CRITICAL"
      warning := some (criticalWarning (confVal confidence))
      requires_manual_review := true }
    if care_level ≠ some "URGENT" then
      { d with message := d.message ++ criticalSuffix (confVal confidence) }
    else d
  else if pyTruthy confidence ∧ confVal confidence < 0.50 then
    { decision with
      confidence_warning := some "LOW"
      requires_confirmation := true
      message := decision.message ++ lowSuffix (confVal confidence) }
  else decision

/-- Embedding of `handle_group2_input`: the main entry point with the care-level logic.
Returns `(is_ours, decision)`. -/
def handle_group2_input (g : Group2Output) : Bool × RoutingDecision :=
  let confidence := g.confidence
  let category := pyStrip g.category
  let care_level := care_level_of category
  if care_level = some "LOW" ∧ pyTruthy confidence ∧ confVal confidence < 0.50 then
    (false,
      { branch := "no_care_needed"
        message := "Based on your input, you\x27re doing well! The assessment suggests " ++ pyLower category ++ ", which you can explore on your own. No immediate professional support needed."
        category := category
        confidence := confidence
        action := "stop_execution"
        care_level := care_level })
  else
    let decision := process_group2_output g
    let decision := { decision with care_level := care_level }
    let is_ours : Bool := decide (decision.branch = "group3")
    (is_ours, confidence_overlay decision confidence care_level)

end Group2Router

namespace AntiHallucination

/-- A facility record.  Every key the validator reads is optional in the
source dict and embedded as an `Option` field; the contact/identity fields
are strings, the scores and similarities are numbers. -/
structure Facility where
  name : Option String := none
  city : Option String := none
  state : Option String := none
  address : Option String := none
  phone : Option String := none
  zip : Option String := none
  score : Option ℚ := none
  affordability_score : Option ℚ := none
  crisis_care_score : Option ℚ := none
  accessibility_score : Option ℚ := none
  specialization_score : Option ℚ := none
  community_integration_score : Option ℚ := none
  affordability_similarity : Option ℚ := none
  crisis_care_similarity : Option ℚ := none
  accessibility_similarity : Option ℚ := none
  specialization_similarity : Option ℚ := none
  community_integration_similarity : Option ℚ := none
  source : Option String := none
deriving Repr, DecidableEq

/-- The `validation` sub-record attached to a facility by
`validate_facility` (the facility itself is returned unchanged apart from
gaining this record, so the embedding returns the record). -/
structure Validation where
  confidence_level : String
  warnings : List String
  data_source : String
  reliability_score : ℚ
deriving Repr, DecidableEq

/-- Render a rational with one decimal place (half-up rounding),
Python `{:.1f}`. -/
def fmtOneDec (q : ℚ) : String :=
  let n : Int := ⌊q * 10 + 1/2⌋
  let a := n.natAbs
  (if n < 0 then "-" else "") ++ toString (a / 10) ++ "." ++ toString (a % 10)

/-- Render a rational with no decimal places (half-up rounding),
Python `{:.0f}`. -/
def fmtZeroDec (q : ℚ) : String := toString (⌊q + 1/2⌋ : Int)

/-- One-decimal rendering of the square root of a variance, used only
inside the high-variance warning text (the source formats
`np.std(...)`); exactness of this string is not relied on by any claim. -/
def fmtStd (variance : ℚ) : String :=
  let n := Nat.sqrt (Int.toNat ⌊variance * 100⌋)
  toString (n / 10) ++ "." ++ toString (n % 10)

/-- The similarity values present on the facility, in the dimension order
of the source. -/
def similarities (f : Facility) : List ℚ :=
  [f.affordability_similarity, f.crisis_care_similarity,
   f.accessibility_similarity, f.specialization_similarity,
   f.community_integration_similarity].filterMap id

/-- The per-dimension scores present on the facility, in the dimension
order of the source. -/
def dimension_scores (f : Facility) : List ℚ :=
  [f.affordability_score, f.crisis_care_score, f.accessibility_score,
   f.specialization_score, f.community_integration_score].filterMap id

/-- Embedding of `_check_score_confidence`: average the present similarities and map to
a tier (`high ≥ 0.70`, `medium ≥ 0.50`, else `low`); with no similarities,
fall back to the overall score (`≥ 8.5 → high`, `≥ 7.0 → medium`,
else `low`, missing score read as 0). -/
def check_score_confidence (f : Facility) : String :=
  let sims := similarities f
  if sims = [] then
    let score := f.score.getD 0
    if score ≥ 8.5 then "high"
    else if score ≥ 7.0 then "medium"
    else "low"
  else
    let avg := sims.sum / (sims.length : ℚ)
    if avg ≥ 0.70 then "high"
    else if avg ≥ 0.50 then "medium"
    else "low"

/-- A required field is counted iff it is truthy, non-blank after
stripping, and its lowercase form is not `nan`. -/
def presentRequired (v : Option String) : Bool :=
  match v with
  | none => false
  | some s => s != "" && pyStrip s != "" && pyLower s != "nan"

/-- An optional field (read with the empty string as default) is counted iff it is
truthy, non-blank after stripping, and its lowercase form is none of
`nan`, `address not available`, `phone not available`, or empty. -/
def presentOptional (v : Option String) : Bool :=
  let s := v.getD ""
  s != "" && pyStrip s != "" &&
    !(["nan", "address not available", "phone not available", ""].contains (pyLower s))

/-- Embedding of `_check_data_completeness`: required fields {name, city, state} weigh
80%, optional fields {address, phone, zip} weigh 20%. -/
def check_data_completeness (f : Facility) : ℚ :=
  let complete_required : ℚ :=
    (if presentRequired f.name then 1 else 0) +
    (if presentRequired f.city then 1 else 0) +
    (if presentRequired f.state then 1 else 0)
  let complete_optional : ℚ :=
    (if presentOptional f.address then 1 else 0) +
    (if presentOptional f.phone then 1 else 0) +
    (if presentOptional f.zip then 1 else 0)
  (complete_required / 3) * 0.8 + (complete_optional / 3) * 0.2

/-- The abnormally-high-score warning text. -/
def highScoreWarning (s : ℚ) : String :=
  "Abnormally high score (" ++ fmtOneDec s ++ "/10), manual verification recommended"

/-- The abnormally-low-score warning text. -/
def lowScoreWarning (s : ℚ) : String :=
  "Abnormally low score (" ++ fmtOneDec s ++ "/10), may not match criteria"

/-- The high-variance warning text. -/
def varianceWarning (variance : ℚ) : String :=
  "High score variance (std dev=" ++ fmtStd variance ++ "), may be unreliable"

/-- Embedding of `_check_score_anomalies`: flag overall score `≥ 9.5` or `≤ 2.0`
(missing score read as 0), and a standard deviation above 2.0 across the
present per-dimension scores (`np.std > 2.0` is embedded as the equivalent
`variance > 4`). -/
def check_score_anomalies (f : Facility) : List String :=
  let overall_score := f.score.getD 0
  let w1 : List String :=
    if overall_score ≥ 9.5 then [highScoreWarning overall_score] else []
  let w2 : List String :=
    if overall_score ≤ 2.0 then [lowScoreWarning overall_score] else []
  let dims := dimension_scores f
  let w3 : List String :=
    if dims ≠ [] then
      let mean := dims.sum / (dims.length : ℚ)
      let variance : ℚ := (dims.map (fun x => (x - mean) ^ 2)).sum / (dims.length : ℚ)
      if variance > 4 then [varianceWarning variance] else []
    else []
  w1 ++ w2 ++ w3

/-- Embedding of `_calculate_reliability`: blend the confidence weight (60%) with the
completeness (30%) plus a fixed 0.1 base, scale to 0–100 and clamp.
The dict default of the weight lookup (0.3) applies to any unlisted tier. -/
def calculate_reliability (confidence : String) (completeness : ℚ) : ℚ :=
  let confidence_score : ℚ :=
    if confidence = "high" then 1.0
    else if confidence = "medium" then 0.7
    else if confidence = "low" then 0.4
    else if confidence = "unknown" then 0.3
    else 0.3
  let reliability := (confidence_score * 0.6 + completeness * 0.3 + 0.1) * 100
  min 100 (max 0 reliability)

/-- The incomplete-data warning text for a completeness fraction. -/
def incompleteWarning (completeness : ℚ) : String :=
  "Incomplete data (" ++ fmtZeroDec (completeness * 100) ++ "%)"

/-- Embedding of `validate_facility`: compute the confidence tier, the completeness
(warning when below 0.5), the anomaly warnings and the reliability score. -/
def validate_facility (f : Facility) : Validation :=
  let confidence := check_score_confidence f
  let completeness := check_data_completeness f
  let completeness_warnings : List String :=
    if completeness < 0.5 then [incompleteWarning completeness] else []
  { confidence_level := confidence
    warnings := completeness_warnings ++ check_score_anomalies f
    data_source := f.source.getD "unknown"
    reliability_score := calculate_reliability confidence completeness }


/-- The empty facility record: every key absent. -/
def emptyFacility : Facility := {}

/-- The concrete facility of spec scenario 5: name/city/state present,
address/phone/zip absent (score present and unremarkable). -/
def scenario5Facility : Facility :=
  { name := some "Test Facility", city := some "Hartford", state := some "CT",
    score := some 5 }

/-- A facility with a name but no score key. -/
def noScoreFacility : Facility := { name := some "Clinic" }

/-- A facility with only a name: completeness 1/3 of the required weight. -/
def lowDataFacility : Facility := { name := some "Shelter" }

end AntiHallucination

namespace Group2Router

lemma confidence_overlay_branch (d : RoutingDecision) (conf : Option ℚ) (care : Option String) :
    (confidence_overlay d conf care).branch = d.branch := by
  unfold confidence_overlay
  split_ifs <;> rfl

lemma confidence_overlay_action (d : RoutingDecision) (conf : Option ℚ) (care : Option String) :
    (confidence_overlay d conf care).action = d.action := by
  unfold confidence_overlay
  split_ifs <;> rfl

lemma process_group2_output_branch (g : Group2Output) :
    (process_group2_output g).branch = (route_category g.category g.confidence).branch := by
  unfold process_group2_output
  split_ifs <;> rfl

lemma route_category_branch_mem (c : String) (conf : Option ℚ) :
    (route_category c conf).branch ∈ (["group3", "group4", "other", "unknown"] : List String) := by
  unfold route_category
  dsimp only
  split_ifs <;> simp

lemma route_category_action_mem (c : String) (conf : Option ℚ) :
    (route_category c conf).action ∈
      (["proceed_to_group3", "transfer_to_group4", "return_to_previous_step",
        "ask_for_clarification"] : List String) := by
  unfold route_category
  dsimp only
  split_ifs <;> simp

lemma route_category_branch_conf_irrel (c : String) (conf conf' : Option ℚ) :
    (route_category c conf).branch = (route_category c conf').branch := by
  unfold route_category
  dsimp only
  split_ifs <;> rfl

lemma handle_not_stopped (g : Group2Output)
    (h : ¬(care_level_of (pyStrip g.category) = some "LOW" ∧ pyTruthy g.confidence ∧
          confVal g.confidence < 0.50)) :
    (handle_group2_input g).2.branch = (route_category g.category g.confidence).branch ∧
    (handle_group2_input g).2.action = (route_category g.category g.confidence).action := by
  unfold handle_group2_input
  rw [if_neg h]
  constructor
  · rw [confidence_overlay_branch]
    exact process_group2_output_branch g
  · rw [confidence_overlay_action]
    unfold process_group2_output
    split_ifs <;> rfl

/-- Claim C3: for every category in the URGENT set and every confidence value,
present or absent, `handle_group2_input` never produces the stop-rule outcome:
the branch of the decision is never `no_care_needed` and its action is never
`stop_execution`, because the urgency lookup assigns care level URGENT before
the stop rule, which only fires on care level LOW. -/
theorem urgent_never_stopped (cat : String) (conf : Option ℚ) (ui : Option String)
    (h : pyStrip cat ∈ URGENT_CATEGORIES) :
    (handle_group2_input ⟨cat, conf, ui⟩).2.branch ≠ "no_care_needed" ∧
    (handle_group2_input ⟨cat, conf, ui⟩).2.action ≠ "stop_execution" := by
  have hcare : care_level_of (pyStrip cat) = some "URGENT" := by
    unfold care_level_of; rw [if_pos h]
  have hns : ¬(care_level_of (pyStrip (⟨cat, conf, ui⟩ : Group2Output).category) = some "LOW" ∧
      pyTruthy (⟨cat, conf, ui⟩ : Group2Output).confidence ∧
      confVal (⟨cat, conf, ui⟩ : Group2Output).confidence < 0.50) := by
    intro hc
    have h1 := hc.1
    simp only [hcare] at h1
    exact absurd (Option.some.inj h1) (by decide)
  obtain ⟨hb, ha⟩ := handle_not_stopped ⟨cat, conf, ui⟩ hns
  dsimp only at hb ha
  constructor
  · rw [hb]
    have hm := route_category_branch_mem cat conf
    simp only [List.mem_cons, List.not_mem_nil, or_false] at hm
    rcases hm with h'|h'|h'|h' <;> rw [h'] <;> decide
  · rw [ha]
    have hm := route_category_action_mem cat conf
    simp only [List.mem_cons, List.not_mem_nil, or_false] at hm
    rcases hm with h'|h'|h'|h' <;> rw [h'] <;> decide

/-- Witness for C3 at category `Crisis counseling`, confidence absent. -/
theorem urgent_never_stopped_witness :
    pyStrip "Crisis counseling" ∈ URGENT_CATEGORIES ∧
    (handle_group2_input ⟨"Crisis counseling", none, none⟩).2.branch ≠ "no_care_needed" :=
  ⟨by decide, (urgent_never_stopped "Crisis counseling" none none (by decide)).1⟩

/-- Claim C4: the three branch sets (GROUP3, GROUP4, OTHER) are pairwise
disjoint and the three urgency sets (URGENT, MODERATE, LOW_PRIORITY) are
pairwise disjoint, so every category has exactly one branch membership
(else UNKNOWN) and at most one urgency tier. -/
theorem category_sets_pairwise_disjoint :
    (∀ c ∈ GROUP3_CATEGORIES, c ∉ GROUP4_CATEGORIES) ∧
    (∀ c ∈ GROUP3_CATEGORIES, c ∉ OTHER_CATEGORIES) ∧
    (∀ c ∈ GROUP4_CATEGORIES, c ∉ OTHER_CATEGORIES) ∧
    (∀ c ∈ URGENT_CATEGORIES, c ∉ MODERATE_CATEGORIES) ∧
    (∀ c ∈ URGENT_CATEGORIES, c ∉ LOW_PRIORITY_CATEGORIES) ∧
    (∀ c ∈ MODERATE_CATEGORIES, c ∉ LOW_PRIORITY_CATEGORIES) := by decide

/-- Witness for C4 at the category `Mental health`. -/
theorem category_sets_pairwise_disjoint_witness :
    "Mental health" ∈ GROUP3_CATEGORIES ∧ "Mental health" ∉ GROUP4_CATEGORIES :=
  ⟨by decide, category_sets_pairwise_disjoint.1 "Mental health" (by decide)⟩

/-- Counterexample to claim C1 as stated: `Self-care` is a LOW category and
confidence 0.0 is present and below 0.50, yet the stop rule does not fire
(`0.0` is falsy under `if confidence and ...`): the call returns
`is_ours = True` with branch `group3`. -/
theorem low_priority_stop_counterexample :
    (handle_group2_input ⟨"Self-care", some 0, none⟩).1 = true ∧
    (handle_group2_input ⟨"Self-care", some 0, none⟩).2.branch = "group3" := by decide

/-- Claim C1, amended: for every category in the LOW set and every present
NONZERO confidence below 0.50, `handle_group2_input` returns
`is_ours = False` with the terminal decision
`{branch: no_care_needed, action: stop_execution, care_level: LOW}`. -/
theorem low_priority_stop_amended (cat : String) (c : ℚ) (ui : Option String)
    (hmem : pyStrip cat ∈ LOW_PRIORITY_CATEGORIES) (h0 : c ≠ 0) (hlt : c < 0.50) :
    (handle_group2_input ⟨cat, some c, ui⟩).1 = false ∧
    (handle_group2_input ⟨cat, some c, ui⟩).2.branch = "no_care_needed" ∧
    (handle_group2_input ⟨cat, some c, ui⟩).2.action = "stop_execution" ∧
    (handle_group2_input ⟨cat, some c, ui⟩).2.care_level = some "LOW" := by
  have h1 : pyStrip cat ∉ URGENT_CATEGORIES := by
    simp only [LOW_PRIORITY_CATEGORIES, List.mem_cons, List.not_mem_nil, or_false] at hmem
    rcases hmem with h|h <;> rw [h] <;> decide
  have h2 : pyStrip cat ∉ MODERATE_CATEGORIES := by
    simp only [LOW_PRIORITY_CATEGORIES, List.mem_cons, List.not_mem_nil, or_false] at hmem
    rcases hmem with h|h <;> rw [h] <;> decide
  have hcare : care_level_of (pyStrip cat) = some "LOW" := by
    unfold care_level_of
    rw [if_neg h1, if_neg h2, if_pos hmem]
  have hpy : pyTruthy (some c) := by
    constructor
    · simp
    · simp only [ne_eq, Option.some.injEq]
      exact h0
  have hcond : care_level_of (pyStrip (⟨cat, some c, ui⟩ : Group2Output).category) = some "LOW" ∧
      pyTruthy (⟨cat, some c, ui⟩ : Group2Output).confidence ∧
      confVal (⟨cat, some c, ui⟩ : Group2Output).confidence < 0.50 :=
    ⟨hcare, hpy, hlt⟩
  unfold handle_group2_input
  rw [if_pos hcond]
  exact ⟨rfl, rfl, rfl, hcare⟩

/-- Witness for the amended C1 at `Self-care` with confidence 0.25. -/
theorem low_priority_stop_amended_witness :
    pyStrip "Self-care" ∈ LOW_PRIORITY_CATEGORIES ∧ (1/4 : ℚ) ≠ 0 ∧ (1/4 : ℚ) < 0.50 ∧
    (handle_group2_input ⟨"Self-care", some (1/4), none⟩).1 = false ∧
    (handle_group2_input ⟨"Self-care", some (1/4), none⟩).2.branch = "no_care_needed" :=
  ⟨by decide, by norm_num, by norm_num,
   (low_priority_stop_amended "Self-care" (1/4) none (by decide) (by norm_num) (by norm_num)).1,
   (low_priority_stop_amended "Self-care" (1/4) none (by decide) (by norm_num) (by norm_num)).2.1⟩

end Group2Router

namespace Group2Router

/-- Counterexample to claim C2 as stated: for `Self-care` at present
confidence 0.20 (below 0.30) the stop rule short-circuits first, so the
returned decision carries neither `confidence_warning = CRITICAL` nor
`requires_manual_review = True`. -/
theorem critical_warning_counterexample :
    (handle_group2_input ⟨"Self-care", some (1/5), none⟩).2.confidence_warning = none ∧
    (handle_group2_input ⟨"Self-care", some (1/5), none⟩).2.requires_manual_review = false := by
  have hcond : care_level_of (pyStrip (⟨"Self-care", some (1/5), none⟩ : Group2Output).category)
        = some "LOW" ∧
      pyTruthy (⟨"Self-care", some (1/5), none⟩ : Group2Output).confidence ∧
      confVal (⟨"Self-care", some (1/5), none⟩ : Group2Output).confidence < 0.50 := by
    refine ⟨by decide, ⟨by simp, ?_⟩, ?_⟩
    · simp only [ne_eq, Option.some.injEq]
      norm_num
    · show (1/5 : ℚ) < 0.50
      norm_num
  unfold handle_group2_input
  rw [if_pos hcond]
  exact ⟨rfl, rfl⟩

/-- Claim C2, amended: for every input whose confidence is present, NONZERO
and below 0.30, and whose care level is not LOW (so the stop rule does not
short-circuit first), `handle_group2_input` sets
`confidence_warning = CRITICAL` and `requires_manual_review = True`, and
appends the critical-warning sentence to the message unless the care level
is URGENT, in which case the message is left unmodified. -/
theorem critical_warning_amended (cat : String) (c : ℚ) (ui : Option String)
    (h0 : c ≠ 0) (hlt : c < 0.30) (hnotlow : care_level_of (pyStrip cat) ≠ some "LOW") :
    (handle_group2_input ⟨cat, some c, ui⟩).2.confidence_warning = some "CRITICAL" ∧
    (handle_group2_input ⟨cat, some c, ui⟩).2.requires_manual_review = true ∧
    (care_level_of (pyStrip cat) = some "URGENT" →
      (handle_group2_input ⟨cat, some c, ui⟩).2.message =
        (process_group2_output ⟨cat, some c, ui⟩).message) ∧
    (care_level_of (pyStrip cat) ≠ some "URGENT" →
      (handle_group2_input ⟨cat, some c, ui⟩).2.message =
        (process_group2_output ⟨cat, some c, ui⟩).message ++ criticalSuffix c) := by
  have hpy : pyTruthy (some c) := by
    constructor
    · simp
    · simp only [ne_eq, Option.some.injEq]
      exact h0
  have hns : ¬(care_level_of (pyStrip cat) = some "LOW" ∧ pyTruthy (some c) ∧
      confVal (some c) < 0.50) := by
    intro hc
    exact hnotlow hc.1
  have hcrit : pyTruthy (some c) ∧ confVal (some c) < 0.30 := ⟨hpy, hlt⟩
  unfold handle_group2_input
  dsimp only
  rw [if_neg hns]
  unfold confidence_overlay
  rw [if_pos hcrit]
  by_cases hu : care_level_of (pyStrip cat) = some "URGENT"
  · rw [if_neg (show ¬(care_level_of (pyStrip cat) ≠ some "URGENT") from by simpa using hu)]
    exact ⟨rfl, rfl, fun _ => rfl, fun hc => absurd hu hc⟩
  · rw [if_pos (show care_level_of (pyStrip cat) ≠ some "URGENT" from hu)]
    exact ⟨rfl, rfl, fun hc => absurd hc hu, fun _ => rfl⟩

/-- Witness for the amended C2 at `Crisis counseling` (URGENT) with
confidence 0.15: both flags set, message identical to the base routing
message. -/
theorem critical_warning_amended_witness :
    (3/20 : ℚ) ≠ 0 ∧ (3/20 : ℚ) < 0.30 ∧
    care_level_of (pyStrip "Crisis counseling") ≠ some "LOW" ∧
    (handle_group2_input ⟨"Crisis counseling", some (3/20), none⟩).2.confidence_warning =
      some "CRITICAL" ∧
    (handle_group2_input ⟨"Crisis counseling", some (3/20), none⟩).2.requires_manual_review =
      true ∧
    (handle_group2_input ⟨"Crisis counseling", some (3/20), none⟩).2.message =
      (process_group2_output ⟨"Crisis counseling", some (3/20), none⟩).message :=
  ⟨by norm_num, by norm_num, by decide,
   (critical_warning_amended "Crisis counseling" (3/20) none (by norm_num) (by norm_num)
     (by decide)).1,
   (critical_warning_amended "Crisis counseling" (3/20) none (by norm_num) (by norm_num)
     (by decide)).2.1,
   (critical_warning_amended "Crisis counseling" (3/20) none (by norm_num) (by norm_num)
     (by decide)).2.2.1 (by decide)⟩

/-- Counterexample to claim C8 as stated: at present confidence 0.0 (below
0.5) `process_group2_output` attaches no low-confidence warning, because
`0.0` is falsy under `if confidence and confidence < 0.5`. -/
theorem route_warning_counterexample :
    (process_group2_output ⟨"Mental health", some 0, none⟩).warning = none := by decide

/-- Claim C8, amended: at the route layer, for every category and every
present NONZERO confidence below 0.5, the routing decision carries the
low-confidence warning string, and the branch is independent of the
confidence value entirely: it is decided purely by the
GROUP3 → GROUP4 → OTHER → UNKNOWN lookup on the stripped category. -/
theorem route_warning_amended (cat : String) (c : ℚ) (ui : Option String)
    (conf conf' : Option ℚ) (h0 : c ≠ 0) (hlt : c < 0.5) :
    (process_group2_output ⟨cat, some c, ui⟩).warning = some (lowConfidenceWarning c) ∧
    (process_group2_output ⟨cat, some c, ui⟩).branch = (route_category cat (some c)).branch ∧
    (route_category cat conf).branch = (route_category cat conf').branch := by
  have hpy : pyTruthy (some c) := by
    constructor
    · simp
    · simp only [ne_eq, Option.some.injEq]
      exact h0
  refine ⟨?_, process_group2_output_branch ⟨cat, some c, ui⟩,
    route_category_branch_conf_irrel cat conf conf'⟩
  unfold process_group2_output
  dsimp only
  rw [if_pos (show pyTruthy (some c) ∧ confVal (some c) < 0.5 from ⟨hpy, hlt⟩)]
  rfl

/-- Witness for the amended C8 at `Mental health` with confidence 0.45. -/
theorem route_warning_amended_witness :
    (9/20 : ℚ) ≠ 0 ∧ (9/20 : ℚ) < 0.5 ∧
    (process_group2_output ⟨"Mental health", some (9/20), none⟩).warning =
      some (lowConfidenceWarning (9/20)) :=
  ⟨by norm_num, by norm_num,
   (route_warning_amended "Mental health" (9/20) none none none (by norm_num) (by norm_num)).1⟩

end Group2Router

namespace AntiHallucination


/-- Claim C5: `_calculate_reliability` returns exactly
`100 × (confidence_weight×0.6 + completeness×0.3 + 0.1)` for each tier
(high→1.0, medium→0.7, low→0.4, unknown→0.3; the clamp to [0,100] never
bites for completeness in [0,1]), and the 0.1 base term makes the result
strictly positive for every tier string. -/
theorem reliability_formula (tier : String) (c : ℚ) (h0 : 0 ≤ c) (h1 : c ≤ 1) :
    calculate_reliability "high" c = ((1.0 : ℚ) * 0.6 + c * 0.3 + 0.1) * 100 ∧
    calculate_reliability "medium" c = ((0.7 : ℚ) * 0.6 + c * 0.3 + 0.1) * 100 ∧
    calculate_reliability "low" c = ((0.4 : ℚ) * 0.6 + c * 0.3 + 0.1) * 100 ∧
    calculate_reliability "unknown" c = ((0.3 : ℚ) * 0.6 + c * 0.3 + 0.1) * 100 ∧
    0 < calculate_reliability tier c := by
  unfold calculate_reliability
  dsimp only
  refine ⟨?_, ?_, ?_, ?_, ?_⟩
  · simp only [String.reduceEq, if_true, if_false, reduceIte]
    rw [max_eq_right (by nlinarith), min_eq_right (by nlinarith)]
  · simp only [String.reduceEq, if_true, if_false, reduceIte]
    rw [max_eq_right (by nlinarith), min_eq_right (by nlinarith)]
  · simp only [String.reduceEq, if_true, if_false, reduceIte]
    rw [max_eq_right (by nlinarith), min_eq_right (by nlinarith)]
  · simp only [String.reduceEq, if_true, if_false, reduceIte]
    rw [max_eq_right (by nlinarith), min_eq_right (by nlinarith)]
  · rw [lt_min_iff]
    refine ⟨by norm_num, ?_⟩
    rw [lt_max_iff]
    right
    split_ifs <;> nlinarith

/-- Witness for C5 at completeness 1/2 and tier `high` (plus positivity at
an unlisted tier string). -/
theorem reliability_formula_witness :
    (0:ℚ) ≤ 1/2 ∧ (1/2:ℚ) ≤ 1 ∧
    calculate_reliability "high" (1/2) = ((1.0 : ℚ) * 0.6 + (1/2 : ℚ) * 0.3 + 0.1) * 100 ∧
    0 < calculate_reliability "mystery" (1/2) :=
  ⟨by norm_num, by norm_num,
   (reliability_formula "mystery" (1/2) (by norm_num) (by norm_num)).1,
   (reliability_formula "mystery" (1/2) (by norm_num) (by norm_num)).2.2.2.2⟩

/-- Claim C6: the reliability score is monotone: non-decreasing in
completeness for every fixed tier, and non-decreasing along the tier rank
order unknown < low < medium < high for every fixed completeness. -/
theorem reliability_monotone (tier : String) (c c1 c2 : ℚ) (hc : c1 ≤ c2) :
    calculate_reliability tier c1 ≤ calculate_reliability tier c2 ∧
    calculate_reliability "unknown" c ≤ calculate_reliability "low" c ∧
    calculate_reliability "low" c ≤ calculate_reliability "medium" c ∧
    calculate_reliability "medium" c ≤ calculate_reliability "high" c := by
  unfold calculate_reliability
  dsimp only
  refine ⟨?_, ?_, ?_, ?_⟩
  · split_ifs <;> exact min_le_min le_rfl (max_le_max le_rfl (by nlinarith))
  · simp only [String.reduceEq, if_true, if_false, reduceIte]
    exact min_le_min le_rfl (max_le_max le_rfl (by nlinarith))
  · simp only [String.reduceEq, if_true, if_false, reduceIte]
    exact min_le_min le_rfl (max_le_max le_rfl (by nlinarith))
  · simp only [String.reduceEq, if_true, if_false, reduceIte]
    exact min_le_min le_rfl (max_le_max le_rfl (by nlinarith))

/-- Witness for C6 at tier `high`, completeness 1/4 ≤ 1/2. -/
theorem reliability_monotone_witness :
    (1/4:ℚ) ≤ 1/2 ∧
    calculate_reliability "high" (1/4) ≤ calculate_reliability "high" (1/2) :=
  ⟨by norm_num, (reliability_monotone "high" 0 (1/4) (1/2) (by norm_num)).1⟩

/-- Claim C7: the completeness fraction always lies in [0,1]; the
incomplete-data warning (showing the percentage) is prepended to the
warning list exactly when completeness < 0.5; and in spec scenario 5 —
name/city/state present, address/phone/zip absent — completeness is
0.8 × 3/3 + 0.2 × 0/3 = 0.8 and the validation carries no warning at all. -/
theorem completeness_bounds_and_warning (f : Facility) :
    0 ≤ check_data_completeness f ∧ check_data_completeness f ≤ 1 ∧
    (check_data_completeness f < 0.5 →
      (validate_facility f).warnings =
        incompleteWarning (check_data_completeness f) :: check_score_anomalies f) ∧
    (¬ check_data_completeness f < 0.5 →
      (validate_facility f).warnings = check_score_anomalies f) ∧
    check_data_completeness scenario5Facility = 4/5 ∧
    (validate_facility scenario5Facility).warnings = [] := by
  have hsc : check_data_completeness scenario5Facility = 4/5 := by
    unfold check_data_completeness
    rw [show presentRequired scenario5Facility.name = true from rfl,
        show presentRequired scenario5Facility.city = true from rfl,
        show presentRequired scenario5Facility.state = true from rfl,
        show presentOptional scenario5Facility.address = false from rfl,
        show presentOptional scenario5Facility.phone = false from rfl,
        show presentOptional scenario5Facility.zip = false from rfl]
    norm_num
  refine ⟨?_, ?_, ?_, ?_, hsc, ?_⟩
  · unfold check_data_completeness
    dsimp only
    split_ifs <;> norm_num
  · unfold check_data_completeness
    dsimp only
    split_ifs <;> norm_num
  · intro hlt
    unfold validate_facility
    dsimp only
    rw [if_pos hlt]
    rfl
  · intro hge
    unfold validate_facility
    dsimp only
    rw [if_neg hge]
    rfl
  · unfold validate_facility
    dsimp only
    rw [if_neg (by rw [hsc]; norm_num)]
    show check_score_anomalies scenario5Facility = []
    unfold check_score_anomalies
    dsimp only
    rw [show (scenario5Facility.score.getD 0) = 5 from rfl,
        show dimension_scores scenario5Facility = [] from rfl]
    rw [if_neg (by norm_num : ¬(5:ℚ) ≥ 9.5), if_neg (by norm_num : ¬(5:ℚ) ≤ 2.0)]
    simp

/-- Witness for the implications of C7 at a facility with only a name present:
completeness 4/15 < 0.5, so the incomplete-data warning heads the list. -/
theorem completeness_bounds_and_warning_witness :
    check_data_completeness lowDataFacility < 0.5 ∧
    (validate_facility lowDataFacility).warnings =
      incompleteWarning (check_data_completeness lowDataFacility) ::
        check_score_anomalies lowDataFacility := by
  have hlt : check_data_completeness lowDataFacility < 0.5 := by
    unfold check_data_completeness
    rw [show presentRequired lowDataFacility.name = true from rfl,
        show presentRequired lowDataFacility.city = false from rfl,
        show presentRequired lowDataFacility.state = false from rfl,
        show presentOptional lowDataFacility.address = false from rfl,
        show presentOptional lowDataFacility.phone = false from rfl,
        show presentOptional lowDataFacility.zip = false from rfl]
    norm_num
  exact ⟨hlt, (completeness_bounds_and_warning lowDataFacility).2.2.1 hlt⟩

end AntiHallucination

namespace AntiHallucination

/-- Counterexample to claim C9 as stated: for a facility whose similarity
fields are all absent and whose score is missing, `validate_facility` does
NOT produce `confidence_level = "unknown"`: `_check_score_confidence`
always returns high/medium/low (the missing score is read as 0 and falls
into the `low` bucket of the score fallback). -/
theorem unknown_confidence_counterexample :
    (validate_facility emptyFacility).confidence_level ≠ "unknown" := by
  unfold validate_facility check_score_confidence
  dsimp only
  rw [show similarities emptyFacility = [] from rfl]
  rw [if_pos rfl]
  rw [show (emptyFacility.score.getD 0) = 0 from rfl]
  rw [if_neg (by norm_num : ¬(0:ℚ) ≥ 8.5), if_neg (by norm_num : ¬(0:ℚ) ≥ 7.0)]
  decide

/-- Claim C9, amended: neither component fails on missing optional fields
(both embeddings are total functions); the degradation defaults are: a
facility with no similarity fields and no usable score gets
`confidence_level = "low"` via the score fallback (score read as 0, not
`unknown`), and the router on an unrecognized category with absent
confidence yields `care_level = None`, no warning, and the `unknown`
clarification branch. -/
theorem degrade_defaults_amended :
    (validate_facility emptyFacility).confidence_level = "low" ∧
    (Group2Router.handle_group2_input ⟨"", none, none⟩).2.care_level = none ∧
    (Group2Router.handle_group2_input ⟨"", none, none⟩).2.warning = none ∧
    (Group2Router.handle_group2_input ⟨"", none, none⟩).2.branch = "unknown" ∧
    (Group2Router.handle_group2_input ⟨"", none, none⟩).2.action = "ask_for_clarification" := by
  refine ⟨?_, by decide, by decide, by decide, by decide⟩
  unfold validate_facility check_score_confidence
  dsimp only
  rw [show similarities emptyFacility = [] from rfl]
  rw [if_pos rfl]
  rw [show (emptyFacility.score.getD 0) = 0 from rfl]
  rw [if_neg (by norm_num : ¬(0:ℚ) ≥ 8.5), if_neg (by norm_num : ¬(0:ℚ) ≥ 7.0)]

/-- Claim C10: every facility dict without a `score` key is scored as 0,
so its validation always contains the warning
`Abnormally low score (0.0/10), may not match criteria`; and when no
similarity fields are present either, the fallback tiering yields
`confidence_level = "low"`, never `"unknown"`. -/
theorem missing_score_low_warning (f : Facility) (hs : f.score = none) :
    "Abnormally low score (0.0/10), may not match criteria" ∈
      (validate_facility f).warnings ∧
    (similarities f = [] → (validate_facility f).confidence_level = "low") := by
  have hfmt : lowScoreWarning 0 = "Abnormally low score (0.0/10), may not match criteria" := by
    unfold lowScoreWarning fmtOneDec
    rw [show (⌊(0:ℚ) * 10 + 1/2⌋ : Int) = 0 from by norm_num]
    rfl
  constructor
  · unfold validate_facility
    dsimp only
    rw [List.mem_append]
    right
    unfold check_score_anomalies
    dsimp only
    rw [hs]
    rw [show ((none : Option ℚ).getD 0) = 0 from rfl]
    rw [if_neg (by norm_num : ¬(0:ℚ) ≥ 9.5), if_pos (by norm_num : (0:ℚ) ≤ 2.0)]
    rw [hfmt]
    simp
  · intro hsim
    unfold validate_facility check_score_confidence
    dsimp only
    rw [hsim]
    rw [if_pos rfl]
    rw [hs]
    rw [show ((none : Option ℚ).getD 0) = 0 from rfl]
    rw [if_neg (by norm_num : ¬(0:ℚ) ≥ 8.5), if_neg (by norm_num : ¬(0:ℚ) ≥ 7.0)]

/-- Witness for C10 at a facility with a name but no score key. -/
theorem missing_score_low_warning_witness :
    noScoreFacility.score = none ∧
    "Abnormally low score (0.0/10), may not match criteria" ∈
      (validate_facility noScoreFacility).warnings ∧
    (validate_facility noScoreFacility).confidence_level = "low" :=
  ⟨rfl, (missing_score_low_warning noScoreFacility rfl).1,
   (missing_score_low_warning noScoreFacility rfl).2 rfl⟩

end AntiHallucination
